import Mathlib

/-!
Verification of the Cuckoo result-collection server (`cuckoo/core/resultserver.py`
and `cuckoo/common/files.py`) against its natural-language specification.

The Python code is shallowly embedded: byte/character strings become `List Char`,
Python dicts become association lists with `DecidableEq` keys, fallible code
returns `Except`, and the mutable per-connection / per-registry state is passed
explicitly.  Each definition carries a comment pointing at the source lines it
embeds.
-/

namespace ResultServer

/-- Association-list lookup, modelling Python `dict.get` (returns `none` when
the key is absent). -/
def lookupKV {κ α : Type} [DecidableEq κ] (m : List (κ × α)) (k : κ) : Option α :=
  match m with
  | [] => none
  | (k2, v) :: rest => if k = k2 then some v else lookupKV rest k

/-- Association-list insertion, modelling Python `d[k] = v` (overwrites any
previous binding for `k`). -/
def insertKV {κ α : Type} [DecidableEq κ] (m : List (κ × α)) (k : κ) (v : α) :
    List (κ × α) :=
  (k, v) :: m.filter (fun p => decide (p.1 ≠ k))

/-- Association-list removal, modelling Python `d.pop(k, default)`'s effect on
the dict. -/
def eraseKV {κ α : Type} [DecidableEq κ] (m : List (κ × α)) (k : κ) :
    List (κ × α) :=
  m.filter (fun p => decide (p.1 ≠ k))

@[simp]
theorem lookupKV_insert_self {κ α : Type} [DecidableEq κ]
    (m : List (κ × α)) (k : κ) (v : α) : lookupKV (insertKV m k v) k = some v := by
  simp [insertKV, lookupKV]

/-! ## PathGuard: `netlog_sanitize_fname` (resultserver.py lines 36-56) -/

/-- resultserver.py lines 36-38: the whitelist of result directories. -/
def RESULT_UPLOADABLE : List (List Char) :=
  ["files".data, "shots".data, "buffer".data, "extracted".data, "memory".data,
   "package_files".data, "logs".data]

/-- resultserver.py line 44: `BANNED_PATH_CHARS = b'\x00:'`. -/
def BANNED_PATH_CHARS : List Char :=
  [Char.ofNat 0, ':']

/-- Python `os.path.split` (posixpath) as called on resultserver.py line 49:
`i = p.rfind('/') + 1; head, tail = p[:i], p[i:]; if head and head != '/'*len(head):
head = head.rstrip('/')`. -/
def ospathSplit (p : List Char) : List Char × List Char :=
  let tail := (p.reverse.takeWhile (fun c => decide (c ≠ '/'))).reverse
  let head := p.take (p.length - tail.length)
  let head :=
    if head ≠ [] ∧ ¬ (head.all (fun c => decide (c = '/'))) then
      (head.reverse.dropWhile (fun c => decide (c = '/'))).reverse
    else head
  (head, tail)

/-- The errors raised as `CuckooOperationalError` by the embedded code paths,
distinguished by their message. -/
inductive CuckooOperationalError
  /-- "Netlog client requested banned path" raised by the whitelist check
  (resultserver.py lines 50-52). -/
  | bannedPathDir
  /-- "Netlog client requested banned path" raised by the banned-character
  check (resultserver.py lines 53-55). -/
  | bannedPathChar
  /-- "No dump path specified for file in task #..." (lines 204-207). -/
  | noDumpPath
  /-- "Analyzer for task #... tried to overwrite an existing file"
  (lines 220-224, mapping `EEXIST` from the exclusive open). -/
  | overwrite
  /-- "Received overly long line" (line 136). -/
  | overlyLongLine
deriving DecidableEq

/-- resultserver.py lines 46-56: validate an agent-provided path.  Replace
backslashes by forward slashes, split with `os.path.split`, require the
directory part to be whitelisted and the name part to avoid banned bytes;
return the (backslash-replaced) path unchanged on success. -/
def netlog_sanitize_fname (path : List Char) :
    Except CuckooOperationalError (List Char) :=
  let path := path.map (fun c => if c = '\\' then '/' else c)
  let parts := ospathSplit path
  if parts.1 ∈ RESULT_UPLOADABLE then
    if parts.2.any (fun c => BANNED_PATH_CHARS.contains c) then
      .error .bannedPathChar
    else
      .ok path
  else .error .bannedPathDir

/-- Modelled from the claim's words (C3): the parent directory component of a
path obtained by "splitting on the last '/'" — everything strictly before the
last slash, with no further normalization.  This is compared against the
directory component the source actually checks (`ospathSplit`). -/
def specParentComponent (p : List Char) : List Char :=
  let tailLen := (p.reverse.takeWhile (fun c => decide (c ≠ '/'))).length
  if p.length = tailLen then [] else p.take (p.length - tailLen - 1)

/-! ## BoundedSink: `WriteLimiter` and `HandlerContext.copy_to_fd`
(resultserver.py lines 145-175) -/

/-- resultserver.py line 171: the literal truncation marker. -/
def truncMarker : List Char := "... (truncated)".data

/-- State of a `WriteLimiter` (resultserver.py lines 156-175): `out` is the
byte sequence written through to the wrapped file descriptor, `remain` the
remaining byte budget, `warned` the one-shot truncation flag.  `warnCount`
instruments the number of `log.warning` calls (line 169); it is not a field of
the Python object. -/
structure WriteLimiter where
  out : List Char
  remain : Nat
  warned : Bool
  warnCount : Nat
deriving DecidableEq

/-- resultserver.py lines 162-172, `WriteLimiter.write(buf)`:
`size = len(buf); write = min(size, self.remain); if write: fd.write(buf[:write]);
remain -= write`; then on first truncation write the marker and warn once. -/
def wl_write (s : WriteLimiter) (buf : List Char) : WriteLimiter :=
  let size := buf.length
  let w := min size s.remain
  let s1 :=
    if w ≠ 0 then
      { s with out := s.out ++ buf.take w, remain := s.remain - w }
    else s
  if size ≠ 0 ∧ size ≠ w ∧ s.warned = false then
    { s1 with out := s1.out ++ truncMarker, warned := true,
              warnCount := s1.warnCount + 1 }
  else s1

/-- resultserver.py lines 145-154, `HandlerContext.copy_to_fd(fd, max_size)`:
when `max_size` is truthy the destination is wrapped in a `WriteLimiter`; the
already-buffered bytes (`drain_buffer`) are written first, then each `read()`
chunk until an empty read.  Returns the bytes written to the destination file
and the number of truncation warnings logged. -/
def copy_to_fd (buf : List Char) (reads : List (List Char)) (max_size : Nat) :
    List Char × Nat :=
  if max_size ≠ 0 then
    let s := (reads.takeWhile (fun c => decide (c ≠ []))).foldl wl_write
      (wl_write ⟨[], max_size, false, 0⟩ buf)
    (s.out, s.warnCount)
  else
    (buf ++ (reads.takeWhile (fun c => decide (c ≠ []))).flatten, 0)

/-- Specification state of a `WriteLimiter` with budget `C` after the byte
sequence `flat` has been offered to `write`. -/
def wlSpec (C : Nat) (flat : List Char) : WriteLimiter :=
  { out := flat.take C ++ (if C < flat.length then truncMarker else []),
    remain := C - flat.length,
    warned := decide (C < flat.length),
    warnCount := if C < flat.length then 1 else 0 }

theorem WriteLimiter.ext2 {a b : WriteLimiter} (h1 : a.out = b.out)
    (h2 : a.remain = b.remain) (h3 : a.warned = b.warned)
    (h4 : a.warnCount = b.warnCount) : a = b := by
  cases a; cases b; simp_all

theorem wl_write_spec (C : Nat) (p b : List Char) :
    wl_write (wlSpec C p) b = wlSpec C (p ++ b) := by
  by_cases hb : b = []
  · subst hb
    simp [wl_write, wlSpec]
  have hb0 : 0 < b.length := List.length_pos.mpr hb
  by_cases hfit : p.length + b.length ≤ C
  · -- whole chunk fits within the remaining budget
    have e2 : ¬ (C < p.length) := by omega
    have e3 : ¬ (C < p.length + b.length) := by omega
    simp only [wl_write, wlSpec, List.length_append]
    rw [show min b.length (C - p.length) = b.length from by omega]
    rw [if_neg (show ¬ (b.length ≠ 0 ∧ b.length ≠ b.length ∧
      decide (C < p.length) = false) from fun h => h.2.1 rfl)]
    rw [if_pos (show b.length ≠ 0 from by omega)]
    refine WriteLimiter.ext2 ?_ ?_ ?_ ?_
    · rw [if_neg e2, if_neg e3, List.take_append_eq_append_take]
      rw [List.take_of_length_le (show b.length ≤ C - p.length from by omega),
        List.take_length, List.append_nil, List.append_nil]
    · simp only
      omega
    · simp only
      rw [decide_eq_false e2, decide_eq_false e3]
    · simp only
      rw [if_neg e2, if_neg e3]
  · by_cases hlt : p.length < C
    · -- chunk partially fits: partial write followed by the marker
      have e2 : ¬ (C < p.length) := by omega
      have e3 : C < p.length + b.length := by omega
      simp only [wl_write, wlSpec, List.length_append]
      rw [show min b.length (C - p.length) = C - p.length from by omega]
      rw [if_pos (show C - p.length ≠ 0 from by omega)]
      rw [if_pos (show b.length ≠ 0 ∧ b.length ≠ C - p.length ∧
        decide (C < p.length) = false from
        ⟨by omega, by omega, decide_eq_false e2⟩)]
      refine WriteLimiter.ext2 ?_ ?_ ?_ ?_
      · rw [if_neg e2, if_pos e3, List.take_append_eq_append_take]
        simp [List.take_of_length_le (le_of_lt hlt)]
      · simp only
        omega
      · simp only [decide_eq_true e3]
      · simp only
        rw [if_neg e2, if_pos e3]
    · by_cases hCE : C = p.length
      · -- budget exactly exhausted before this chunk: only the marker fires
        have e2 : ¬ (C < p.length) := by omega
        have e3 : C < p.length + b.length := by omega
        simp only [wl_write, wlSpec, List.length_append]
        rw [show min b.length (C - p.length) = 0 from by omega]
        rw [if_neg (show ¬ (0 : Nat) ≠ 0 from by omega)]
        rw [if_pos (show b.length ≠ 0 ∧ b.length ≠ 0 ∧
          decide (C < p.length) = false from
          ⟨by omega, by omega, decide_eq_false e2⟩)]
        refine WriteLimiter.ext2 ?_ ?_ ?_ ?_
        · rw [if_neg e2, if_pos e3, List.take_append_eq_append_take]
          rw [show C - p.length = 0 from by omega]
          simp
        · simp only
          omega
        · simp only [decide_eq_true e3]
        · simp only
          rw [if_neg e2, if_pos e3]
      · -- budget exceeded earlier: the limiter has already warned, no-op
        have e2 : C < p.length := by omega
        have e3 : C < p.length + b.length := by omega
        simp only [wl_write, wlSpec, List.length_append]
        rw [show min b.length (C - p.length) = 0 from by omega]
        rw [if_neg (show ¬ (0 : Nat) ≠ 0 from by omega)]
        rw [if_neg (show ¬ (b.length ≠ 0 ∧ b.length ≠ 0 ∧
          decide (C < p.length) = false) from by
            simp [decide_eq_true e2])]
        refine WriteLimiter.ext2 ?_ ?_ ?_ ?_
        · rw [if_pos e2, if_pos e3, List.take_append_eq_append_take]
          rw [show C - p.length = 0 from by omega]
          simp
        · simp only
          omega
        · simp only [decide_eq_true e2, decide_eq_true e3]
        · simp only
          rw [if_pos e2, if_pos e3]

theorem wl_foldl_spec (C : Nat) (cs : List (List Char)) (p : List Char) :
    cs.foldl wl_write (wlSpec C p) = wlSpec C (p ++ cs.flatten) := by
  induction cs generalizing p with
  | nil => simp
  | cons c rest ih =>
      simp only [List.foldl_cons, List.flatten_cons, wl_write_spec]
      rw [ih, List.append_assoc]

theorem wlSpec_nil (C : Nat) : wlSpec C [] = ⟨[], C, false, 0⟩ := by
  simp [wlSpec]

/-! ## ConnectionReader: `HandlerContext.read_newline`
(resultserver.py lines 28-29 and 129-143) -/

/-- resultserver.py line 29: `MAX_NETLOG_LINE = 4 * 1024`. -/
def MAX_NETLOG_LINE : Nat := 4 * 1024

/-- The two ways `read_newline` fails: `CuckooOperationalError("Received
overly long line")` (line 136) and Python's `EOFError` (line 139), raised when
`read()` returns an empty string because the peer closed. -/
inductive ReadLineError
  | overlyLongLine
  | endOfStream
deriving DecidableEq

/-- resultserver.py lines 129-143, `HandlerContext.read_newline`: loop looking
for a newline in the carry buffer; before each `read()` the buffer length is
checked against `MAX_NETLOG_LINE`.  The socket is modelled by the list `reads`
of successive `read()` results; an exhausted list, like an explicit empty
chunk, is a clean close (`read()` returning `""`).  The loop is phrased by
recursion on the pending reads — each iteration performs, in source order,
the newline scan, the length check, then consumes the next `read()` result.
On success returns the line and the new carry buffer. -/
def read_newline (buf : List Char) (reads : List (List Char)) :
    Except ReadLineError (List Char × List Char) :=
  match reads with
  | [] =>
    match buf.findIdx? (fun c => decide (c = '\n')) with
    | some pos => .ok (buf.take pos, buf.drop (pos + 1))
    | none =>
      if MAX_NETLOG_LINE ≤ buf.length then .error .overlyLongLine
      else .error .endOfStream
  | c :: rest =>
    match buf.findIdx? (fun c => decide (c = '\n')) with
    | some pos => .ok (buf.take pos, buf.drop (pos + 1))
    | none =>
      if MAX_NETLOG_LINE ≤ buf.length then .error .overlyLongLine
      else if c = [] then .error .endOfStream
      else read_newline (buf ++ c) rest

/-! ## FileUpload (resultserver.py lines 177-241) and `open_exclusive`
(cuckoo/common/files.py lines 26-34) -/

/-- The version-3 `FILE` header, a JSON object
`{store_as, path?, pids?, rid?}` (spec §4.4; resultserver.py lines 200-213). -/
structure FileHeader where
  store_as : Option (List Char) := none
  path : Option (List Char) := none
  pids : List Nat := []
  rid : Option Nat := none
deriving DecidableEq

/-- One JSON line of the `files.json` journal (resultserver.py lines 228-233). -/
structure JournalEntry where
  path : List Char
  filepath : Option (List Char)
  pids : List Nat
deriving DecidableEq

/-- The task's on-disk state as touched by `FileUpload`: artifact files keyed
by their sanitized relative path, and the `files.json` journal lines. -/
structure TaskFS where
  files : List (List Char × List Char) := []
  filelog : List JournalEntry := []
deriving DecidableEq

/-- Per-connection session state (resultserver.py lines 80-95): the claims
only observe `response_id`, which `HandlerContext.__init__` sets to `None`
(line 90) and which no other statement in the module ever assigns. -/
structure HandlerContext where
  response_id : Option Nat := none
deriving DecidableEq

/-- resultserver.py lines 184-240, `FileUpload.handle`, version-3 header
branch (the `else` of the version dispatch), composed with `open_exclusive`
(files.py lines 26-34) modelled on `TaskFS`: creating the destination fails
iff the path already exists (`O_CREAT|O_EXCL|O_WRONLY` → `EEXIST`).

Steps, in source order: `self.response_id = self.header.get("rid")` (line 201
— an attribute of the `FileUpload` object, not of the `HandlerContext`);
reject a missing or empty `store_as` (lines 203-207); sanitize it (line 210);
exclusive-create the destination, mapping `EEXIST` to the Overwrite error
(lines 218-225); append the journal line (lines 228-233); stream the body
through `copy_to_fd` with the `upload_max_size` cap (line 237).

Returns the resulting filesystem, the (unchanged) session context, the
protocol object's `response_id` attribute, and the outcome. -/
def fileUploadHandleV3 (ctx : HandlerContext) (header : FileHeader)
    (upload_max_size : Nat) (buf : List Char) (reads : List (List Char))
    (fs : TaskFS) :
    TaskFS × HandlerContext × Option Nat × Except CuckooOperationalError Unit :=
  let protoResponseId := header.rid
  match header.store_as with
  | none => (fs, ctx, protoResponseId, .error .noDumpPath)
  | some dump_path =>
    if dump_path = [] then (fs, ctx, protoResponseId, .error .noDumpPath)
    else
      match netlog_sanitize_fname dump_path with
      | .error e => (fs, ctx, protoResponseId, .error e)
      | .ok dump_path =>
        match lookupKV fs.files dump_path with
        | some _ => (fs, ctx, protoResponseId, .error .overwrite)
        | none =>
          let fs1 : TaskFS := { fs with files := insertKV fs.files dump_path [] }
          let fs2 : TaskFS :=
            { fs1 with filelog :=
                fs1.filelog ++ [⟨dump_path, header.path, header.pids⟩] }
          let content := (copy_to_fd buf reads upload_max_size).1
          ({ fs2 with files := insertKV fs2.files dump_path content },
           ctx, protoResponseId, .ok ())

/-- resultserver.py lines 404-405: on handler exit,
`if ctx.response_id is not None: self.rt.on_message(protocol.header)`.
Returns the headers forwarded as `on_message` calls.  (When the guard is
taken the source dereferences `self.rt` on the worker object, an attribute
`GeventResultServerWorker` never defines.) -/
def on_exit_messages (ctxResponseId : Option Nat) (header : FileHeader) :
    List FileHeader :=
  match ctxResponseId with
  | some _ => [header]
  | none => []

/-! ## TaskRegistry: `GeventResultServerWorker` state and operations
(resultserver.py lines 308-441) -/

/-- The worker's shared, lock-protected state (resultserver.py lines 334-338):
`tasks` maps peer IP to task id, `rthandlers` maps task id to its realtime
dispatcher, `handlers` maps task id to the set of running handler contexts.
IPs, task ids, dispatchers and contexts are modelled by opaque numerals. -/
structure Registry where
  tasks : List (Nat × Nat)
  rthandlers : List (Nat × Nat)
  handlers : List (Nat × List Nat)
deriving DecidableEq

/-- Python's `KeyError`, raised by `dict.pop(k)` without a default. -/
inductive PyError
  | keyError
deriving DecidableEq

/-- Observable events of one `del_task` execution, in program order:
acquiring and releasing `task_mgmt_lock`, the three `pop`s, the diagnostics
warnings, and each `ctx.cancel()` call. -/
inductive DTEvent
  | acquire
  | popTasks
  | warnNoTask
  | popRt
  | popHandlers
  | warnCancel (ctx : Nat)
  | cancel (ctx : Nat)
  | release
deriving DecidableEq

/-- resultserver.py lines 343-346, `add_task`: under the lock, bind the IP to
the task and the task to its realtime dispatcher (silently overwriting). -/
def add_task (r : Registry) (task_id ipaddr rt_handler : Nat) : Registry :=
  { r with tasks := insertKV r.tasks ipaddr task_id,
           rthandlers := insertKV r.rthandlers task_id rt_handler }

/-- resultserver.py lines 348-362, `del_task`: everything happens inside
`with self.task_mgmt_lock:` — `self.tasks.pop(ipaddr, None)` (warning when
absent), `self.rthandlers.pop(task_id)` (no default: raises `KeyError` when
absent, after `tasks` was already popped; the `with` block still releases the
lock), `self.handlers.pop(task_id, set())`, then `ctx.cancel()` on each
extracted context, still under the lock.  Returns the mutated registry, the
event trace, and the outcome. -/
def del_task (r : Registry) (task_id ipaddr : Nat) :
    Registry × List DTEvent × Except PyError Unit :=
  let popped := lookupKV r.tasks ipaddr
  let tasks1 := eraseKV r.tasks ipaddr
  let ev1 := [DTEvent.acquire, DTEvent.popTasks] ++
    (if popped = none then [DTEvent.warnNoTask] else [])
  match lookupKV r.rthandlers task_id with
  | none =>
      ({ r with tasks := tasks1 }, ev1 ++ [DTEvent.release], .error .keyError)
  | some _ =>
      let ctxs := (lookupKV r.handlers task_id).getD []
      let cancelEvs :=
        (ctxs.map (fun c => [DTEvent.warnCancel c, DTEvent.cancel c])).flatten
      (⟨tasks1, eraseKV r.rthandlers task_id, eraseKV r.handlers task_id⟩,
       ev1 ++ [DTEvent.popRt, DTEvent.popHandlers] ++ cancelEvs ++
         [DTEvent.release],
       .ok ())

/-- Formalization of C8's temporal claim on a `del_task` trace: does some
`cancel` occur while the mutex is still held, i.e. before the `release`
event? -/
def cancelWhileLocked (t : List DTEvent) : Bool :=
  (t.takeWhile (fun e => decide (e ≠ DTEvent.release))).any
    (fun e => match e with | DTEvent.cancel _ => true | _ => false)

/-- Result of the connection-acceptance guard of
`GeventResultServerWorker.handle` (resultserver.py lines 364-375). -/
inductive HandleStart
  | rejected
  | accepted (task_id : Nat) (rt : Option Nat)
deriving DecidableEq

/-- resultserver.py lines 369-375: `task_id = self.tasks.get(ipaddr);
if not task_id: warn; return` — the truthiness test rejects both a missing
binding and a binding to task id `0` — then `rt = self.rthandlers.get(task_id)`.
`rejected` means the function returns before any `HandlerContext` is built. -/
def serverHandleStart (r : Registry) (ipaddr : Nat) : HandleStart :=
  match lookupKV r.tasks ipaddr with
  | none => .rejected
  | some task_id =>
      if task_id = 0 then .rejected
      else .accepted task_id (lookupKV r.rthandlers task_id)

/-- The four wire commands (resultserver.py lines 322-327). -/
inductive Command
  | BSON
  | FILE
  | LOG
  | REALTIME
deriving DecidableEq

/-- resultserver.py lines 322-327 and 419-426: `self.commands.get(command)`
after `command = header[0]` from `ctx.read_newline().split(" ", 1)`.  When the
lookup fails, `negotiate_protocol` logs a warning and returns `None`
(lines 423-426) — before any of the JSON-header handling on lines 427-439 —
so for an unknown command the full function's value is `None`. -/
def negotiate_klass (line : List Char) : Option Command :=
  let command := line.takeWhile (fun c => decide (c ≠ ' '))
  if command = "BSON".data then some .BSON
  else if command = "FILE".data then some .FILE
  else if command = "LOG".data then some .LOG
  else if command = "REALTIME".data then some .REALTIME
  else none

/-- Outcome of `GeventResultServerWorker.handle` after negotiation. -/
inductive HandleOutcome
  /-- lines 393-396: the task was cancelled during negotiation; clean return. -/
  | cancelledDuringNegotiation
  /-- `with protocol:` with `protocol = None` raises (None is not a context
  manager); the exception propagates out of `handle` — only `EOFError` is
  caught (line 383) — after the inner `finally` block has run. -/
  | noneProtocolError
  /-- the protocol's context was entered and its handler ran. -/
  | ranProtocol (c : Command)
deriving DecidableEq

/-- resultserver.py lines 389-414: after `negotiate_protocol` returned
`protocol`, re-check the IP→task binding under the lock, register the context
in `self.handlers`, then `with protocol: protocol.handle()` with a `finally`
that discards the context again.  The registry effects and control-flow
outcome are modelled here; the disk effects of a protocol's `handle()` are
modelled separately (`fileUploadHandleV3`).  When `protocol` is `None`
(unknown command or invalid header), entering the `with` raises immediately,
the `finally` still discards the context, and the exception escapes. -/
def handle_after_negotiation (r : Registry) (ipaddr task_id ctx : Nat)
    (protocol : Option Command) : Registry × HandleOutcome :=
  if lookupKV r.tasks ipaddr ≠ some task_id then
    (r, .cancelledDuringNegotiation)
  else
    let s := (lookupKV r.handlers task_id).getD []
    let s1 := if ctx ∈ s then s else s ++ [ctx]
    let sAfter := s1.filter (fun c => decide (c ≠ ctx))
    let r1 := { r with handlers := insertKV r.handlers task_id sAfter }
    match protocol with
    | none => (r1, .noneProtocolError)
    | some c => (r1, .ranProtocol c)

/-! ## Claim theorems -/

/-- C3, counterexample: the claim computes the parent directory component by
"splitting on the last '/'", but `os.path.split` first strips trailing
slashes from the directory part.  For the raw input `"files//x"` the sanitizer
accepts the path unchanged (its `os.path.split` head is `"files"`), yet the
claim's parent component of the returned path is `"files/"`, which is not one
of the seven whitelisted strings. -/
theorem sanitize_naive_parent_counterexample :
    netlog_sanitize_fname ("files//x".data) = Except.ok ("files//x".data) ∧
    specParentComponent ("files//x".data) ∉ RESULT_UPLOADABLE := by
  refine ⟨by rfl, by decide⟩

/-- C3, amended: for every accepted path, the parent directory component as
`os.path.split` computes it — split at the last '/', then strip trailing
slashes from the directory part unless it is all slashes — is exactly one of
the seven whitelisted strings, and the filename component contains neither
NUL nor ':'. -/
theorem sanitize_parent_whitelisted (raw p : List Char)
    (h : netlog_sanitize_fname raw = Except.ok p) :
    (ospathSplit p).1 ∈ RESULT_UPLOADABLE ∧
    ∀ c ∈ (ospathSplit p).2, c ∉ BANNED_PATH_CHARS := by
  unfold netlog_sanitize_fname at h
  by_cases h1 : (ospathSplit (raw.map (fun c => if c = '\\' then '/' else c))).1
      ∈ RESULT_UPLOADABLE
  · rw [if_pos h1] at h
    by_cases h2 : (ospathSplit
        (raw.map (fun c => if c = '\\' then '/' else c))).2.any
        (fun c => BANNED_PATH_CHARS.contains c)
    · rw [if_pos h2] at h
      cases h
    · rw [if_neg h2] at h
      obtain rfl : raw.map (fun c => if c = '\\' then '/' else c) = p := by
        cases h; rfl
      refine ⟨h1, ?_⟩
      intro c hc hmem
      apply h2
      rw [List.any_eq_true]
      exact ⟨c, hc, List.elem_eq_true_of_mem hmem⟩
  · rw [if_neg h1] at h
    cases h

/-- C3, witness for `sanitize_parent_whitelisted` at the concrete accepted
path `"shots/0001.jpg"`. -/
theorem sanitize_parent_whitelisted_witness :
    (ospathSplit ("shots/0001.jpg".data)).1 ∈ RESULT_UPLOADABLE ∧
    ∀ c ∈ (ospathSplit ("shots/0001.jpg".data)).2, c ∉ BANNED_PATH_CHARS :=
  sanitize_parent_whitelisted ("shots/0001.jpg".data) ("shots/0001.jpg".data)
    (by rfl)

/-- C5: `del_task` is not idempotent.  After `add_task(7, ip=5, rt=1)` a first
`del_task(7, 5)` succeeds, but a second call with the same arguments raises
`KeyError` from `self.rthandlers.pop(task_id)` (resultserver.py line 358,
the only `pop` in `del_task` without a default) instead of returning
normally; the registry itself is left unchanged by the failed call. -/
theorem del_task_second_call_keyerror :
    ((del_task (add_task ⟨[], [], []⟩ 7 5 1) 7 5).2.2 = Except.ok ()) ∧
    ((del_task (del_task (add_task ⟨[], [], []⟩ 7 5 1) 7 5).1 7 5).2.2 =
      Except.error PyError.keyError) ∧
    ((del_task (del_task (add_task ⟨[], [], []⟩ 7 5 1) 7 5).1 7 5).1 =
      (del_task (add_task ⟨[], [], []⟩ 7 5 1) 7 5).1) := by
  refine ⟨by rfl, by rfl, by rfl⟩

/-- C7: on an unknown first-line command (here `"FOO"`, from registered
IP 5 bound to task 7), `negotiate_protocol` logs and returns `None`
(resultserver.py lines 423-426), but `handle` does not test for `None`: the
context is registered in `self.handlers`, then `with protocol:` raises
because `None` is not a context manager, the `finally` discards the context,
and the exception escapes the per-connection handler.  The registry is left
with a new empty session-set entry for task 7 — observable state change —
rather than being untouched as the claim requires. -/
theorem unknown_command_none_protocol :
    negotiate_klass ("FOO".data) = none ∧
    handle_after_negotiation ⟨[(5, 7)], [(7, 1)], []⟩ 5 7 101
        (negotiate_klass ("FOO".data)) =
      (⟨[(5, 7)], [(7, 1)], [(7, [])]⟩, HandleOutcome.noneProtocolError) ∧
    (⟨[(5, 7)], [(7, 1)], [(7, [])]⟩ : Registry) ≠ ⟨[(5, 7)], [(7, 1)], []⟩ := by
  refine ⟨by rfl, by rfl, by decide⟩

/-- C8, counterexample: in `del_task` the `ctx.cancel()` loop (resultserver.py
lines 360-362) is inside the `with self.task_mgmt_lock:` block, so a cancel
is issued while the mutex is still held — before the `release` event — for
the concrete registry holding one running context 101 for task 7. -/
theorem del_task_cancel_under_lock_counterexample :
    (del_task ⟨[(5, 7)], [(7, 1)], [(7, [101])]⟩ 7 5).2.1 =
      [DTEvent.acquire, DTEvent.popTasks, DTEvent.popRt, DTEvent.popHandlers,
       DTEvent.warnCancel 101, DTEvent.cancel 101, DTEvent.release] ∧
    cancelWhileLocked (del_task ⟨[(5, 7)], [(7, 1)], [(7, [101])]⟩ 7 5).2.1 =
      true := by
  refine ⟨by rfl, by rfl⟩

/-- C8, amended: in every `del_task` execution the three registry entries are
removed and `cancel()` is invoked on every extracted session all while the
registry mutex is held — every event other than the final `release` sits
strictly between `acquire` and `release`; the cancels happen before the lock
is released, not after. -/
theorem del_task_cancels_before_release (r : Registry)
    (task_id ipaddr rt : Nat)
    (h : lookupKV r.rthandlers task_id = some rt) :
    ∃ mid, (del_task r task_id ipaddr).2.1 =
        DTEvent.acquire :: (mid ++ [DTEvent.release]) ∧
      DTEvent.release ∉ mid ∧ DTEvent.acquire ∉ mid ∧
      (∀ c ∈ (lookupKV r.handlers task_id).getD [], DTEvent.cancel c ∈ mid) ∧
      (del_task r task_id ipaddr).1 =
        ⟨eraseKV r.tasks ipaddr, eraseKV r.rthandlers task_id,
         eraseKV r.handlers task_id⟩ := by
  unfold del_task
  rw [h]
  refine ⟨[DTEvent.popTasks] ++
    (if lookupKV r.tasks ipaddr = none then [DTEvent.warnNoTask] else []) ++
    [DTEvent.popRt, DTEvent.popHandlers] ++
    (((lookupKV r.handlers task_id).getD []).map
      (fun c => [DTEvent.warnCancel c, DTEvent.cancel c])).flatten,
    ?_, ?_, ?_, ?_, ?_⟩
  · simp [List.append_assoc]
  · intro hmem
    simp only [List.mem_append, List.mem_flatten, List.mem_map] at hmem
    rcases hmem with ((h1 | h1) | h1) | ⟨l, ⟨c, _, rfl⟩, hl⟩
    · simp at h1
    · split at h1 <;> simp at h1
    · simp at h1
    · simp at hl
  · intro hmem
    simp only [List.mem_append, List.mem_flatten, List.mem_map] at hmem
    rcases hmem with ((h1 | h1) | h1) | ⟨l, ⟨c, _, rfl⟩, hl⟩
    · simp at h1
    · split at h1 <;> simp at h1
    · simp at h1
    · simp at hl
  · intro c hc
    simp only [List.mem_append, List.mem_flatten, List.mem_map]
    exact Or.inr ⟨[DTEvent.warnCancel c, DTEvent.cancel c], ⟨c, hc, rfl⟩,
      by simp⟩
  · rfl

/-- C8, witness for `del_task_cancels_before_release` at a concrete registry
with one running context for the task. -/
theorem del_task_cancels_before_release_witness :
    ∃ mid, (del_task ⟨[(5, 7)], [(7, 1)], [(7, [101])]⟩ 7 5).2.1 =
        DTEvent.acquire :: (mid ++ [DTEvent.release]) ∧
      DTEvent.release ∉ mid ∧ DTEvent.acquire ∉ mid ∧
      (∀ c ∈ (lookupKV (⟨[(5, 7)], [(7, 1)], [(7, [101])]⟩ : Registry).handlers
          7).getD [], DTEvent.cancel c ∈ mid) ∧
      (del_task ⟨[(5, 7)], [(7, 1)], [(7, [101])]⟩ 7 5).1 =
        ⟨eraseKV (⟨[(5, 7)], [(7, 1)], [(7, [101])]⟩ : Registry).tasks 5,
         eraseKV (⟨[(5, 7)], [(7, 1)], [(7, [101])]⟩ : Registry).rthandlers 7,
         eraseKV (⟨[(5, 7)], [(7, 1)], [(7, [101])]⟩ : Registry).handlers 7⟩ :=
  del_task_cancels_before_release ⟨[(5, 7)], [(7, 1)], [(7, [101])]⟩ 7 5 1
    (by rfl)

/-- C10: an IP registered via `add_task` with task id 0 is treated exactly
like an unregistered IP: the guard `if not task_id:` (resultserver.py
line 371) tests truthiness, so both a missing binding and a binding to 0
make `handle` warn and return before any session is created. -/
theorem task_id_zero_rejected (r r2 : Registry) (ipaddr rt : Nat)
    (h : lookupKV r2.tasks ipaddr = none) :
    serverHandleStart (add_task r 0 ipaddr rt) ipaddr = HandleStart.rejected ∧
    serverHandleStart r2 ipaddr = HandleStart.rejected := by
  constructor
  · unfold serverHandleStart add_task
    simp only [lookupKV_insert_self]
    rfl
  · unfold serverHandleStart
    rw [h]

/-- C10, witness for `task_id_zero_rejected` on the empty registry. -/
theorem task_id_zero_rejected_witness :
    serverHandleStart (add_task ⟨[], [], []⟩ 0 5 1) 5 = HandleStart.rejected ∧
    serverHandleStart ⟨[], [], []⟩ 5 = HandleStart.rejected :=
  task_id_zero_rejected ⟨[], [], []⟩ ⟨[], [], []⟩ 5 1 (by rfl)

/-- C9: whenever `FileUpload.handle` fails — missing/empty `store_as`,
sanitizer rejection, or the exclusive-create open failing on an existing
destination — the task filesystem, and in particular the `files.json`
journal, is left exactly as it was: the journal append (resultserver.py
lines 228-233) runs only after `open_exclusive` has succeeded
(lines 218-225). -/
theorem fileUpload_error_frame (ctx : HandlerContext) (h : FileHeader)
    (cap : Nat) (b : List Char) (cs : List (List Char)) (fs : TaskFS)
    (e : CuckooOperationalError)
    (herr : (fileUploadHandleV3 ctx h cap b cs fs).2.2.2 = Except.error e) :
    (fileUploadHandleV3 ctx h cap b cs fs).1 = fs := by
  rcases hsa : h.store_as with _ | dp
  · simp [fileUploadHandleV3, hsa]
  · by_cases hdp : dp = []
    · simp [fileUploadHandleV3, hsa, hdp]
    · rcases hsan : netlog_sanitize_fname dp with e2 | pth
      · simp [fileUploadHandleV3, hsa, hdp, hsan]
      · rcases hlk : lookupKV fs.files pth with _ | cont
        · simp [fileUploadHandleV3, hsa, hdp, hsan, hlk] at herr
        · simp [fileUploadHandleV3, hsa, hdp, hsan, hlk]

/-- C9, witness for `fileUpload_error_frame`: a header without `store_as`
fails and leaves a nonempty filesystem untouched. -/
theorem fileUpload_error_frame_witness :
    (fileUploadHandleV3 ⟨none⟩ ⟨none, none, [], none⟩ 10 ("hi".data) []
      ⟨[], [⟨("shots/a".data), none, []⟩]⟩).1 =
      ⟨[], [⟨("shots/a".data), none, []⟩]⟩ :=
  fileUpload_error_frame ⟨none⟩ ⟨none, none, [], none⟩ 10 ("hi".data) []
    ⟨[], [⟨("shots/a".data), none, []⟩]⟩ CuckooOperationalError.noDumpPath
    (by rfl)

/-- Auxiliary invariant: `FileUpload.handle` never touches the session
context (in particular it never assigns `ctx.response_id`), and the `rid` of
a version-3 header lands in the protocol object's own `response_id`
attribute (resultserver.py line 201). -/
theorem fileUpload_ctx_rid (ctx : HandlerContext) (h : FileHeader) (cap : Nat)
    (b : List Char) (cs : List (List Char)) (fs : TaskFS) :
    (fileUploadHandleV3 ctx h cap b cs fs).2.1 = ctx ∧
    (fileUploadHandleV3 ctx h cap b cs fs).2.2.1 = h.rid := by
  rcases hsa : h.store_as with _ | dp
  · simp [fileUploadHandleV3, hsa]
  · by_cases hdp : dp = []
    · simp [fileUploadHandleV3, hsa, hdp]
    · rcases hsan : netlog_sanitize_fname dp with e2 | pth
      · simp [fileUploadHandleV3, hsa, hdp, hsan]
      · rcases hlk : lookupKV fs.files pth with _ | cont <;>
          simp [fileUploadHandleV3, hsa, hdp, hsan, hlk]

/-- C4: for a version-3 `FILE` header that carries `rid`, the code stores the
rid on the `FileUpload` protocol object (`self.response_id`, line 201), not
on the per-connection `HandlerContext`, whose `response_id` stays `None`
(line 90); consequently the exit-guard `if ctx.response_id is not None`
(line 404) is never taken and no header is ever forwarded as an `on_message`
call — contrary to the claimed remember-and-forward behaviour.  (Had the
guard been taken, the source would dereference `self.rt`, which the worker
object does not define.) -/
theorem file_rid_never_forwarded (sa : List Char) (pp : Option (List Char))
    (ps : List Nat) (rid cap : Nat) (b : List Char) (cs : List (List Char))
    (fs : TaskFS) :
    (fileUploadHandleV3 ⟨none⟩ ⟨some sa, pp, ps, some rid⟩ cap b cs fs).2.1 =
      (⟨none⟩ : HandlerContext) ∧
    (fileUploadHandleV3 ⟨none⟩ ⟨some sa, pp, ps, some rid⟩ cap b cs fs).2.2.1 =
      some rid ∧
    on_exit_messages
      (fileUploadHandleV3 ⟨none⟩ ⟨some sa, pp, ps, some rid⟩
        cap b cs fs).2.1.response_id
      ⟨some sa, pp, ps, some rid⟩ = [] := by
  obtain ⟨h1, h2⟩ :=
    fileUpload_ctx_rid ⟨none⟩ ⟨some sa, pp, ps, some rid⟩ cap b cs fs
  refine ⟨h1, h2, ?_⟩
  rw [h1]
  rfl

/-- C1: at most one of two `FILE` uploads with the same `store_as` succeeds.
If a first upload completed, a second upload of the same `store_as` (any
body, any session) fails at the `open_exclusive` step with the Overwrite
operational error (`EEXIST` mapped at resultserver.py lines 218-225), and
the filesystem — including the first upload's file — is left intact. -/
theorem fileUpload_exclusive_no_overwrite
    (ctx1 ctx2 ctx1' : HandlerContext) (h1 h2 : FileHeader) (cap : Nat)
    (b1 b2 : List Char) (cs1 cs2 : List (List Char)) (fs0 fs1 : TaskFS)
    (rid1 : Option Nat)
    (hsame : h2.store_as = h1.store_as)
    (hrun1 : fileUploadHandleV3 ctx1 h1 cap b1 cs1 fs0 =
      (fs1, ctx1', rid1, Except.ok ())) :
    (fileUploadHandleV3 ctx2 h2 cap b2 cs2 fs1).1 = fs1 ∧
    (fileUploadHandleV3 ctx2 h2 cap b2 cs2 fs1).2.2.2 =
      Except.error CuckooOperationalError.overwrite := by
  rcases hsa : h1.store_as with _ | dp
  · simp [fileUploadHandleV3, hsa] at hrun1
  · by_cases hdp : dp = []
    · simp [fileUploadHandleV3, hsa, hdp] at hrun1
    · rcases hsan : netlog_sanitize_fname dp with e2 | pth
      · simp [fileUploadHandleV3, hsa, hdp, hsan] at hrun1
      · rcases hlk : lookupKV fs0.files pth with _ | cont
        · -- the first run succeeded and created the destination
          have hfs : (fileUploadHandleV3 ctx1 h1 cap b1 cs1 fs0).1 = fs1 := by
            rw [hrun1]
          rw [← hfs]
          simp [fileUploadHandleV3, hsame, hsa, hdp, hsan, hlk]
        · simp [fileUploadHandleV3, hsa, hdp, hsan, hlk] at hrun1

/-- C1, concrete first upload used by the witness. -/
def c1Run1 : TaskFS × HandlerContext × Option Nat ×
    Except CuckooOperationalError Unit :=
  fileUploadHandleV3 ⟨none⟩ { store_as := some ("shots/a".data) } 10
    ("hi".data) [] ⟨[], []⟩

/-- C1, witness: after a successful upload of `shots/a`, a second upload of
the same path fails with the Overwrite error and the filesystem is
unchanged. -/
theorem fileUpload_exclusive_no_overwrite_witness :
    (fileUploadHandleV3 ⟨none⟩ { store_as := some ("shots/a".data) } 10
      ("xy".data) [] c1Run1.1).1 = c1Run1.1 ∧
    (fileUploadHandleV3 ⟨none⟩ { store_as := some ("shots/a".data) } 10
      ("xy".data) [] c1Run1.1).2.2.2 =
      Except.error CuckooOperationalError.overwrite :=
  fileUpload_exclusive_no_overwrite ⟨none⟩ ⟨none⟩ c1Run1.2.1
    { store_as := some ("shots/a".data) } { store_as := some ("shots/a".data) }
    10 ("hi".data) ("xy".data) [] [] ⟨[], []⟩ c1Run1.1 c1Run1.2.2.1 rfl
    (by rfl)

theorem takeWhile_all_of_pred {α : Type} (p : α → Bool) (l : List α)
    (h : ∀ a ∈ l, p a = true) : l.takeWhile p = l :=
  List.takeWhile_eq_self_iff.mpr h

/-- C2: for a single `FILE` upload whose body arrives as the carry buffer
`buf` followed by the nonempty `read()` chunks `reads`, under a configured
cap `C > 0`, the bytes written to the destination are exactly the first
`min(L, C)` bytes of the body followed by the literal `"... (truncated)"`
iff `L > C`; the truncation warning is logged at most once, and exactly once
iff truncation happened (truncation is not an error — `copy_to_fd` returns
normally). -/
theorem copy_to_fd_truncation (buf : List Char) (reads : List (List Char))
    (C : Nat) (hC : 0 < C) (hreads : ∀ c ∈ reads, c ≠ []) :
    (copy_to_fd buf reads C).1 =
      (buf ++ reads.flatten).take (min (buf ++ reads.flatten).length C) ++
        (if C < (buf ++ reads.flatten).length then truncMarker else []) ∧
    (copy_to_fd buf reads C).2 ≤ 1 ∧
    ((copy_to_fd buf reads C).2 = 1 ↔ C < (buf ++ reads.flatten).length) := by
  have htw : reads.takeWhile (fun c => decide (c ≠ [])) = reads :=
    takeWhile_all_of_pred _ _ (fun a ha => decide_eq_true (hreads a ha))
  have h0 : wl_write ⟨[], C, false, 0⟩ buf = wlSpec C buf := by
    have hw := wl_write_spec C [] buf
    rwa [wlSpec_nil, List.nil_append] at hw
  have hfold : copy_to_fd buf reads C =
      ((wlSpec C (buf ++ reads.flatten)).out,
       (wlSpec C (buf ++ reads.flatten)).warnCount) := by
    unfold copy_to_fd
    rw [if_pos (by omega : C ≠ 0), htw, h0, wl_foldl_spec]
  rw [hfold]
  have hmin : (buf ++ reads.flatten).take
      (min (buf ++ reads.flatten).length C) =
      (buf ++ reads.flatten).take C := by
    rw [Nat.min_comm, ← List.take_take, List.take_length]
  refine ⟨?_, ?_, ?_⟩
  · rw [hmin]; rfl
  · simp only [wlSpec]
    split <;> omega
  · simp only [wlSpec]
    split_ifs with hlt
    · exact ⟨fun _ => hlt, fun _ => rfl⟩
    · exact ⟨False.elim, fun hl => absurd hl hlt⟩

/-- C2, witness: body `"abcde"` under cap 3 yields `"abc"` plus the marker,
with exactly one warning. -/
theorem copy_to_fd_truncation_witness :
    (copy_to_fd ("ab".data) [("cde".data)] 3).1 =
      (("ab".data) ++ [("cde".data)].flatten).take
        (min (("ab".data) ++ [("cde".data)].flatten).length 3) ++
      (if 3 < (("ab".data) ++ [("cde".data)].flatten).length then truncMarker
       else []) ∧
    (copy_to_fd ("ab".data) [("cde".data)] 3).2 ≤ 1 ∧
    ((copy_to_fd ("ab".data) [("cde".data)] 3).2 = 1 ↔
      3 < (("ab".data) ++ [("cde".data)].flatten).length) :=
  copy_to_fd_truncation ("ab".data) [("cde".data)] 3 (by decide) (by decide)

theorem findIdx_newline_none {l : List Char} (h : Char.ofNat 10 ∉ l) :
    l.findIdx? (fun c => decide (c = '\n')) = none := by
  rw [List.findIdx?_eq_none_iff]
  intro x hx
  simp only [decide_eq_false_iff_not]
  intro hcontra
  exact h (by simpa [hcontra] using hx)

/-- C6: `read_newline` fails with the overly-long-line operational error
whenever the carry buffer reaches `MAX_NETLOG_LINE = 4096` bytes without a
newline — in particular for a negotiation line of exactly 4096 newline-free
bytes arriving as one read — and fails with `EOFError` when the peer closes
cleanly before a newline arrives; in neither case is a line returned. -/
theorem read_newline_limits (bigBuf line smallBuf : List Char)
    (reads : List (List Char))
    (hbig : Char.ofNat 10 ∉ bigBuf) (hbiglen : MAX_NETLOG_LINE ≤ bigBuf.length)
    (hline : Char.ofNat 10 ∉ line) (hlinelen : line.length = MAX_NETLOG_LINE)
    (hsmall : Char.ofNat 10 ∉ smallBuf)
    (hsmalllen : smallBuf.length < MAX_NETLOG_LINE) :
    read_newline bigBuf reads = Except.error ReadLineError.overlyLongLine ∧
    read_newline [] [line] = Except.error ReadLineError.overlyLongLine ∧
    read_newline smallBuf [] = Except.error ReadLineError.endOfStream := by
  have hlineNil : line ≠ [] := by
    intro hcontra
    rw [hcontra] at hlinelen
    simp [MAX_NETLOG_LINE] at hlinelen
  refine ⟨?_, ?_, ?_⟩
  · cases reads with
    | nil =>
        simp only [read_newline, findIdx_newline_none hbig]
        rw [if_pos hbiglen]
    | cons c rest =>
        simp only [read_newline, findIdx_newline_none hbig]
        rw [if_pos hbiglen]
  · simp only [read_newline, List.findIdx?_nil, List.length_nil]
    rw [if_neg (show ¬ MAX_NETLOG_LINE ≤ 0 from by decide), if_neg hlineNil,
      List.nil_append]
    simp only [read_newline, findIdx_newline_none hline]
    rw [if_pos (le_of_eq hlinelen.symm)]
  · simp only [read_newline, findIdx_newline_none hsmall]
    rw [if_neg (by omega : ¬ MAX_NETLOG_LINE ≤ smallBuf.length)]

/-- C6, witness for `read_newline_limits` with 4096-byte newline-free
buffers and a short buffer followed by a clean close. -/
theorem read_newline_limits_witness :
    read_newline (List.replicate 5000 'a') [] =
      Except.error ReadLineError.overlyLongLine ∧
    read_newline [] [List.replicate 4096 'a'] =
      Except.error ReadLineError.overlyLongLine ∧
    read_newline ('P' :: []) [] = Except.error ReadLineError.endOfStream :=
  read_newline_limits (List.replicate 5000 'a') (List.replicate 4096 'a')
    ('P' :: []) []
    (fun hmem => absurd (List.mem_replicate.mp hmem).2 (by decide))
    (by rw [List.length_replicate]; decide)
    (fun hmem => absurd (List.mem_replicate.mp hmem).2 (by decide))
    (by rw [List.length_replicate]; rfl)
    (by decide)
    (by decide)

end ResultServer
